import Mathlib

/-!
Verification development for the google-mcp server.

The subject is the multi-tenant client/session management layer
(`src/utils/client-manager.ts`), the tool catalog (`src/tools.ts`) and the
tool-dispatch handler (`src/index.ts`).  TypeScript is embedded shallowly:

* A `ClientInstance` (an object produced by `new GoogleCalendar(...)`,
  `new GoogleGmail(...)`, ...) is modelled by an allocation identifier
  `Nat`; object identity (`===`) is equality of identifiers, and every
  construction draws a fresh identifier from a counter.
* The `Map<string, any>` cache of `ClientManager` is an association list
  `List (String × Nat)` with JavaScript `Map.get` / `Map.set` semantics.
* `createAuthClient` (src/utils/auth.ts, not part of the sources given)
  is an external, fallible exchange; its outcome is modelled by an oracle
  `authOk : String → Bool` giving the (deterministic, per-token) success
  of the exchange, and a counter records how many times it was invoked.
* Fallible asynchronous code returns `Except String`; a rejected promise
  is `.error msg`.
-/

set_option autoImplicit false

namespace GoogleMcp

/-- The five Google service kinds the `ClientManager` caches clients for. -/
inductive Service where
  | calendar
  | gmail
  | drive
  | tasks
  | meet
deriving DecidableEq, Repr

/-- The service part of a cache key: the source builds keys
`` `${hashedToken}-google-calendar` ``, `"default-google-gmail"`, etc. -/
def serviceSuffix : Service → String
  | .calendar => "google-calendar"
  | .gmail => "google-gmail"
  | .drive => "google-drive"
  | .tasks => "google-tasks"
  | .meet => "google-meet"

/-- Modelled from the spec: `hashString` (src/utils/helper.ts, a file not
among the given sources) is the credential fingerprint.  The spec requires
it to be deterministic, pure, and collision-free
(`fingerprint(c1) == fingerprint(c2) ⟺ c1 == c2`); it is modelled as an
injective function on strings whose output never collides with the
`"default"` prefix of the default-identity cache keys. -/
def hashString (s : String) : String := "h" ++ s

/-- Cache key for a credentialed identity: `` `${hashedToken}-google-x` ``. -/
def tokenKey (t : String) (s : Service) : String :=
  hashString t ++ "-" ++ serviceSuffix s

/-- Cache key for the default (no-credential) identity: `"default-google-x"`. -/
def defaultKey (s : Service) : String :=
  "default-" ++ serviceSuffix s

/-- JavaScript `Map.get`: first (and only) binding of a key, if any. -/
def mapGet (k : String) : List (String × Nat) → Option Nat
  | [] => none
  | (k', v) :: rest => if k' = k then some v else mapGet k rest

/-- JavaScript `Map.set`: overwrite the binding in place, else append. -/
def mapSet (k : String) (v : Nat) : List (String × Nat) → List (String × Nat)
  | [] => [(k, v)]
  | (k', v') :: rest =>
      if k' = k then (k, v) :: rest else (k', v') :: mapSet k v rest

/-- The `ClientManager` state (src/utils/client-manager.ts): the
`clients` map, plus the allocation counter giving object identity to every
constructed client, and the number of `createAuthClient` invocations
performed so far (the authentication-exchange count). -/
structure ClientManager where
  clients : List (String × Nat)
  nextId : Nat
  authCalls : Nat
deriving DecidableEq, Repr

/-- One optional-default-instance registration step of the constructor:
`if (defaultGoogleXInstance) { this.clients.set("default-google-x", ...) }`.
The instance passed in is a fresh object (`new GoogleX(authClient)` at the
call site in src/index.ts), so it receives a fresh identifier. -/
def addDefault (s : Service) (present : Bool) (m : ClientManager) : ClientManager :=
  if present then
    { m with
      clients := mapSet (defaultKey s) m.nextId m.clients
      nextId := m.nextId + 1 }
  else m

/-- The `ClientManager` constructor: registers a default instance per
service for which one is supplied, in source order
(calendar, gmail, drive, tasks, meet). -/
def mkClientManager (cal gm dr ta me : Bool) : ClientManager :=
  addDefault .meet me <| addDefault .tasks ta <| addDefault .drive dr <|
    addDefault .gmail gm <| addDefault .calendar cal ⟨[], 0, 0⟩

/-- The credentialed path shared verbatim by `getGoogleCalendarInstance`,
`getGoogleGmailInstance`, `getGoogleDriveInstance` and
`getGoogleTasksInstance`:

```ts
const hashedToken = hashString(authToken);
const client = this.clients.get(`${hashedToken}-google-x`);
if (client) return client;
const newClient = new GoogleX(await createAuthClient(authToken));
this.clients.set(`${hashedToken}-google-x`, newClient);
return newClient;
```

On a hit the cached instance is returned and the state is untouched; on a
miss `createAuthClient` is attempted (counted in `authCalls` whether or
not it succeeds); if it fails the rejection propagates and nothing is
stored; otherwise a fresh client is constructed and cached. -/
def buildSimple (authOk : String → Bool) (s : Service) (t : String)
    (m : ClientManager) : Except String Nat × ClientManager :=
  match mapGet (tokenKey t s) m.clients with
  | some c => (.ok c, m)
  | none =>
      if authOk t then
        (.ok m.nextId,
          { clients := mapSet (tokenKey t s) m.nextId m.clients
            nextId := m.nextId + 1
            authCalls := m.authCalls + 1 })
      else
        (.error "AuthInitializationError", { m with authCalls := m.authCalls + 1 })

/-- `ClientManager.getGoogleXInstance(authToken?)` for every service kind.

* No token: `return this.clients.get("default-google-x")` — possibly
  `undefined` (modelled `none`), never a construction.
* Token, service ≠ meet: the shared credentialed path (`buildSimple`).
* Token, meet (`getGoogleMeetInstance`): on a cache miss the source runs
  `new GoogleMeet(await createAuthClient(authToken),
  await this.getGoogleCalendarInstance(authToken))` — one authentication
  exchange for the Meet client itself, then a full calendar resolution
  (which may perform a second exchange), then the Meet client is cached. -/
def getInstance (authOk : String → Bool) (s : Service) (tok : Option String)
    (m : ClientManager) : Except String (Option Nat) × ClientManager :=
  match tok with
  | none => (.ok (mapGet (defaultKey s) m.clients), m)
  | some t =>
      match s with
      | .meet =>
          match mapGet (tokenKey t .meet) m.clients with
          | some c => (.ok (some c), m)
          | none =>
              if authOk t then
                let m1 : ClientManager := { m with authCalls := m.authCalls + 1 }
                match buildSimple authOk .calendar t m1 with
                | (.ok _, m2) =>
                    (.ok (some m2.nextId),
                      { clients := mapSet (tokenKey t .meet) m2.nextId m2.clients
                        nextId := m2.nextId + 1
                        authCalls := m2.authCalls })
                | (.error e, m2) => (.error e, m2)
              else
                (.error "AuthInitializationError",
                  { m with authCalls := m.authCalls + 1 })
      | _ =>
          match buildSimple authOk s t m with
          | (.ok c, m') => (.ok (some c), m')
          | (.error e, m') => (.error e, m')

/-- `ClientManager.getGoogleCalendarInstance`. -/
def ClientManager.getGoogleCalendarInstance (m : ClientManager)
    (authOk : String → Bool) (tok : Option String) :
    Except String (Option Nat) × ClientManager :=
  getInstance authOk .calendar tok m

/-- `ClientManager.getGoogleMeetInstance`. -/
def ClientManager.getGoogleMeetInstance (m : ClientManager)
    (authOk : String → Bool) (tok : Option String) :
    Except String (Option Nat) × ClientManager :=
  getInstance authOk .meet tok m

/-! ### The tool catalog (src/tools.ts)

A `ToolDefinition` is `{ name, description, inputSchema }`.  The claims
only depend on a tool's name and on the `required` field list of its input
schema, so a tool is embedded as that pair; descriptions and property
schemas are dropped. -/

structure Tool where
  name : String
  required : List String
deriving DecidableEq, Repr

def SET_DEFAULT_CALENDAR_TOOL : Tool := ⟨"google_calendar_set_default", ["calendarId"]⟩
def LIST_CALENDARS_TOOL : Tool := ⟨"google_calendar_list_calendars", []⟩
def CREATE_EVENT_TOOL : Tool := ⟨"google_calendar_create_event", ["summary", "start", "end"]⟩
def GET_EVENTS_TOOL : Tool := ⟨"google_calendar_get_events", []⟩
def GET_EVENT_TOOL : Tool := ⟨"google_calendar_get_event", ["eventId"]⟩
def UPDATE_EVENT_TOOL : Tool := ⟨"google_calendar_update_event", ["eventId"]⟩
def DELETE_EVENT_TOOL : Tool := ⟨"google_calendar_delete_event", ["eventId"]⟩
def FIND_FREE_TIME_TOOL : Tool := ⟨"google_calendar_find_free_time", ["startDate", "endDate", "duration"]⟩
def LIST_LABELS_TOOL : Tool := ⟨"google_gmail_list_labels", []⟩
def LIST_EMAILS_TOOL : Tool := ⟨"google_gmail_list_emails", []⟩
def GET_EMAIL_TOOL : Tool := ⟨"google_gmail_get_email", ["messageId"]⟩
def GET_EMAIL_BY_INDEX_TOOL : Tool := ⟨"google_gmail_get_email_by_index", ["index"]⟩
def SEND_EMAIL_TOOL : Tool := ⟨"google_gmail_send_email", ["to", "subject", "body"]⟩
def DRAFT_EMAIL_TOOL : Tool := ⟨"google_gmail_draft_email", ["to", "subject", "body"]⟩
def DELETE_EMAIL_TOOL : Tool := ⟨"google_gmail_delete_email", ["messageId"]⟩
def MODIFY_LABELS_TOOL : Tool := ⟨"google_gmail_modify_labels", ["messageId"]⟩
def LIST_FILES_TOOL : Tool := ⟨"google_drive_list_files", []⟩
def GET_FILE_CONTENT_TOOL : Tool := ⟨"google_drive_get_file_content", ["fileId"]⟩
def CREATE_FILE_TOOL : Tool := ⟨"google_drive_create_file", ["name", "content"]⟩
def UPDATE_FILE_TOOL : Tool := ⟨"google_drive_update_file", ["fileId", "content"]⟩
def APPEND_TO_FILE_TOOL : Tool := ⟨"google_drive_append_to_file", ["fileId", "content"]⟩
def DELETE_FILE_TOOL : Tool := ⟨"google_drive_delete_file", ["fileId"]⟩
def SHARE_FILE_TOOL : Tool := ⟨"google_drive_share_file", ["fileId", "emailAddress"]⟩
def SET_DEFAULT_TASKLIST_TOOL : Tool := ⟨"google_tasks_set_default_list", ["taskListId"]⟩
def LIST_TASKLISTS_TOOL : Tool := ⟨"google_tasks_list_tasklists", []⟩
def LIST_TASKS_TOOL : Tool := ⟨"google_tasks_list_tasks", []⟩
def GET_TASK_TOOL : Tool := ⟨"google_tasks_get_task", ["taskId"]⟩
def CREATE_TASK_TOOL : Tool := ⟨"google_tasks_create_task", ["title"]⟩
def UPDATE_TASK_TOOL : Tool := ⟨"google_tasks_update_task", ["taskId"]⟩
def COMPLETE_TASK_TOOL : Tool := ⟨"google_tasks_complete_task", ["taskId"]⟩
def DELETE_TASK_TOOL : Tool := ⟨"google_tasks_delete_task", ["taskId"]⟩
def CREATE_TASKLIST_TOOL : Tool := ⟨"google_tasks_create_tasklist", ["title"]⟩
def DELETE_TASKLIST_TOOL : Tool := ⟨"google_tasks_delete_tasklist", ["taskListId"]⟩
def LIST_MEETINGS_TOOL : Tool := ⟨"google_meet_list_meetings", []⟩
def GET_MEETING_INFO_TOOL : Tool := ⟨"google_meet_get_meeting_info", ["conferenceRecordId"]⟩
def GET_MEETING_TRANSCRIPT_TOOL : Tool := ⟨"google_meet_get_transcript", ["conferenceRecordId"]⟩
def SEARCH_MEETING_TRANSCRIPTS_TOOL : Tool := ⟨"google_meet_search_transcripts", ["query"]⟩

/-- The full catalog `tools`, in registration order (UPDATE_FILE_TOOL and
QUERY_GEMINI_NOTES_TOOL are commented out in the source). -/
def tools : List Tool := [
  SET_DEFAULT_CALENDAR_TOOL, LIST_CALENDARS_TOOL, CREATE_EVENT_TOOL,
  GET_EVENTS_TOOL, GET_EVENT_TOOL, UPDATE_EVENT_TOOL, DELETE_EVENT_TOOL,
  FIND_FREE_TIME_TOOL,
  LIST_LABELS_TOOL, LIST_EMAILS_TOOL, GET_EMAIL_TOOL, GET_EMAIL_BY_INDEX_TOOL,
  SEND_EMAIL_TOOL, DRAFT_EMAIL_TOOL, DELETE_EMAIL_TOOL, MODIFY_LABELS_TOOL,
  LIST_FILES_TOOL, GET_FILE_CONTENT_TOOL, CREATE_FILE_TOOL,
  APPEND_TO_FILE_TOOL, DELETE_FILE_TOOL, SHARE_FILE_TOOL,
  SET_DEFAULT_TASKLIST_TOOL, LIST_TASKLISTS_TOOL, LIST_TASKS_TOOL,
  GET_TASK_TOOL, CREATE_TASK_TOOL, UPDATE_TASK_TOOL, COMPLETE_TASK_TOOL,
  DELETE_TASK_TOOL, CREATE_TASKLIST_TOOL, DELETE_TASKLIST_TOOL,
  LIST_MEETINGS_TOOL, GET_MEETING_INFO_TOOL, GET_MEETING_TRANSCRIPT_TOOL,
  SEARCH_MEETING_TRANSCRIPTS_TOOL]

/-- The scope table `toolsPerScope`; unknown scopes yield `none`
(JavaScript `undefined`). -/
def toolsPerScope : String → Option (List Tool)
  | "https://www.googleapis.com/auth/calendar.readonly" =>
      some [LIST_CALENDARS_TOOL, GET_EVENTS_TOOL, GET_EVENT_TOOL,
        FIND_FREE_TIME_TOOL]
  | "https://www.googleapis.com/auth/calendar" =>
      some [SET_DEFAULT_CALENDAR_TOOL, LIST_CALENDARS_TOOL, CREATE_EVENT_TOOL,
        GET_EVENTS_TOOL, GET_EVENT_TOOL, UPDATE_EVENT_TOOL, DELETE_EVENT_TOOL,
        FIND_FREE_TIME_TOOL]
  | "https://www.googleapis.com/auth/gmail.readonly" =>
      some [LIST_LABELS_TOOL, LIST_EMAILS_TOOL, GET_EMAIL_TOOL,
        GET_EMAIL_BY_INDEX_TOOL]
  | "https://mail.google.com/" =>
      some [LIST_LABELS_TOOL, LIST_EMAILS_TOOL, GET_EMAIL_TOOL,
        GET_EMAIL_BY_INDEX_TOOL, SEND_EMAIL_TOOL, DRAFT_EMAIL_TOOL,
        DELETE_EMAIL_TOOL, MODIFY_LABELS_TOOL]
  | "https://www.googleapis.com/auth/drive.readonly" =>
      some [LIST_FILES_TOOL, GET_FILE_CONTENT_TOOL]
  | "https://www.googleapis.com/auth/drive" =>
      some [LIST_FILES_TOOL, GET_FILE_CONTENT_TOOL, CREATE_FILE_TOOL,
        APPEND_TO_FILE_TOOL, DELETE_FILE_TOOL, SHARE_FILE_TOOL]
  | "https://www.googleapis.com/auth/tasks.readonly" =>
      some [LIST_TASKLISTS_TOOL, LIST_TASKS_TOOL, GET_TASK_TOOL]
  | "https://www.googleapis.com/auth/tasks" =>
      some [SET_DEFAULT_TASKLIST_TOOL, LIST_TASKLISTS_TOOL, LIST_TASKS_TOOL,
        GET_TASK_TOOL, CREATE_TASK_TOOL, UPDATE_TASK_TOOL, COMPLETE_TASK_TOOL,
        DELETE_TASK_TOOL, CREATE_TASKLIST_TOOL, DELETE_TASKLIST_TOOL]
  | "https://www.googleapis.com/auth/meetings.space.readonly" =>
      some [LIST_MEETINGS_TOOL, GET_MEETING_INFO_TOOL,
        GET_MEETING_TRANSCRIPT_TOOL, SEARCH_MEETING_TRANSCRIPTS_TOOL]
  | _ => none

/-- The deduplication of `getToolsForScopes`.  The source keeps a tool iff
its index equals the first index carrying the same name
(`index === self.findIndex(t => t.name === tool.name)`), i.e. it keeps
exactly the first occurrence of each name; this is rendered with an
accumulator of names already seen. -/
def dedupByName (seen : List String) : List Tool → List Tool
  | [] => []
  | t :: rest =>
      if t.name ∈ seen then dedupByName seen rest
      else t :: dedupByName (t.name :: seen) rest

/-- `getToolsForScopes(scopes?)`: with no scope list, the full catalog;
otherwise the per-scope lists are concatenated
(`scopes.map(..).flat().filter(Boolean)` drops the `undefined` produced by
unknown scopes, i.e. unknown scopes contribute nothing) and deduplicated
by name. -/
def getToolsForScopes : Option (List String) → List Tool
  | none => tools
  | some ss => dedupByName [] ((ss.filterMap toolsPerScope).flatten)

/-- The spec's description of the deduplication, stated as its own
recursion for the refinement proof of the catalog-scoping claim: keep the
first occurrence of each name, deleting the later duplicates, preserving
first-seen order. -/
def dedupSpec : List Tool → List Tool
  | [] => []
  | t :: rest => t :: dedupSpec (rest.filter fun u => u.name != t.name)
termination_by l => l.length
decreasing_by
  simp_wf
  exact Nat.lt_succ_of_le (List.length_filter_le _ _)

/-! ### The tool-call dispatcher (src/index.ts, CallToolRequestSchema handler)

The handler body runs inside one `try`; the `catch` converts any thrown
error into the uniform `{content:[{type:"text", text:"Error: <msg>"}],
isError:true}` envelope.  All content blocks produced by the handler have
`type: "text"`, so a block is embedded as its text string.  The external
Google operations (the method called on the resolved client) are an
oracle `op`; the startup `initializationPromise` outcome is a parameter
`init`; for instrumentation the embedding also returns the manager state,
the list of client resolutions performed (service and forwarded token)
and the client instance the operation was invoked on. -/

structure ToolResult where
  content : List String
  isError : Bool
deriving DecidableEq, Repr

def errorEnvelope (msg : String) : ToolResult :=
  ⟨["Error: " ++ msg], true⟩

def unknownEnvelope (name : String) : ToolResult :=
  ⟨["Unknown tool: " ++ name], true⟩

/-- Argument-bag lookup (property access on the untyped `args` object);
values are modelled as strings, `none` is JavaScript `undefined`. -/
def argGet (k : String) : List (String × String) → Option String
  | [] => none
  | (k', v) :: rest => if k' = k then some v else argGet k rest

/-- JavaScript truthiness of a possibly-absent string property:
`undefined` and `""` are falsy. -/
def truthy : Option String → Bool
  | none => false
  | some s => s != ""

/-- Modelled from the spec: `extractAuthToken` (src/utils/auth.ts, not
among the given sources) parses a bearer-style authorization header into
a raw credential or `undefined`; it is total.  (Character-list phrasing
of the prefix test, so that it evaluates by reduction.) -/
def extractAuthToken : Option String → Option String
  | none => none
  | some h =>
      if h.data.take 7 = "Bearer ".data then some (String.mk (h.data.drop 7))
      else none

/-- The tools.ts schemas consulted by the modelled validators: the
catalog plus the dispatchable-but-unlisted `UPDATE_FILE_TOOL`. -/
def toolSchemas : List Tool := tools ++ [UPDATE_FILE_TOOL]

/-- Modelled from the spec: the per-tool validators
(`isCreateEventArgs`, `isGetTaskArgs`, ..., src/utils/helper.ts, not
among the given sources) check the presence of all fields the tool's
input schema marks `required`. -/
def validateArgs (name : String) (args : List (String × String)) : Bool :=
  match toolSchemas.find? (fun t => t.name == name) with
  | some t => t.required.all fun f => (argGet f args).isSome
  | none => true

/-- The dispatch table of the `switch (name)`: for every handled case,
the service whose client the handler resolves and whether the handler
forwards the extracted credential to the resolution
(`getGoogleXInstance(authToken)`).  The `google_tasks_get_task` case
calls `getGoogleTasksInstance()` without the token.  The four Meet tools
and `google_drive_append_to_file` have no case.  Unhandled names fall to
the `default` branch. -/
def handledTool : String → Option (Service × Bool)
  | "google_calendar_set_default" => some (.calendar, true)
  | "google_calendar_list_calendars" => some (.calendar, true)
  | "google_calendar_create_event" => some (.calendar, true)
  | "google_calendar_get_events" => some (.calendar, true)
  | "google_calendar_get_event" => some (.calendar, true)
  | "google_calendar_update_event" => some (.calendar, true)
  | "google_calendar_delete_event" => some (.calendar, true)
  | "google_calendar_find_free_time" => some (.calendar, true)
  | "google_gmail_list_labels" => some (.gmail, true)
  | "google_gmail_list_emails" => some (.gmail, true)
  | "google_gmail_get_email" => some (.gmail, true)
  | "google_gmail_get_email_by_index" => some (.gmail, true)
  | "google_gmail_send_email" => some (.gmail, true)
  | "google_gmail_draft_email" => some (.gmail, true)
  | "google_gmail_delete_email" => some (.gmail, true)
  | "google_gmail_modify_labels" => some (.gmail, true)
  | "google_drive_list_files" => some (.drive, true)
  | "google_drive_get_file_content" => some (.drive, true)
  | "google_drive_create_file" => some (.drive, true)
  | "google_drive_update_file" => some (.drive, true)
  | "google_drive_delete_file" => some (.drive, true)
  | "google_drive_share_file" => some (.drive, true)
  | "google_tasks_set_default_list" => some (.tasks, true)
  | "google_tasks_list_tasklists" => some (.tasks, true)
  | "google_tasks_list_tasks" => some (.tasks, true)
  | "google_tasks_get_task" => some (.tasks, false)
  | "google_tasks_create_task" => some (.tasks, true)
  | "google_tasks_update_task" => some (.tasks, true)
  | "google_tasks_complete_task" => some (.tasks, true)
  | "google_tasks_delete_task" => some (.tasks, true)
  | "google_tasks_create_tasklist" => some (.tasks, true)
  | "google_tasks_delete_tasklist" => some (.tasks, true)
  | _ => none

/-- `if (!MULTIUSER_MODE) await initializationPromise`: in multiuser mode
the startup promise is not consulted; otherwise its rejection propagates.
(The subsequent `!clientManager || !clientManager.getGoogleXInstance()`
test of the source can never throw once the await succeeded: the manager
is set by the fulfilled promise and the un-awaited instance getters
return promises, which are always truthy.) -/
def gateOk : Bool → Except String Unit → Except String Unit
  | true, _ => .ok ()
  | false, i => i

structure BodyOut where
  outcome : Except String ToolResult
  manager : ClientManager
  resolves : List (Service × Option String)
  usedClient : Option Nat
deriving Repr

/-- The body of the `try` block of the call-tool handler, in source
order: extract the credential; in single-tenant mode await the startup
initialization; reject absent arguments; switch on the tool name
(`default` returns the unknown-tool envelope without throwing); for a
handled tool validate, resolve the client, invoke the operation and wrap
a success envelope.  `google_calendar_create_event` re-checks that its
three required fields are truthy before resolving.  (The inner
`try/catch` of `google_gmail_get_email_by_index` yields the same
`Error:` envelope the outer catch would, so it is not distinguished.) -/
def callToolBody (multiuser : Bool) (init : Except String Unit)
    (authOk : String → Bool)
    (op : String → Nat → List (String × String) → Except String String)
    (header : Option String) (name : String)
    (args : Option (List (String × String))) (m : ClientManager) : BodyOut :=
  let authToken := extractAuthToken header
  match gateOk multiuser init with
  | .error e => ⟨.error e, m, [], none⟩
  | .ok _ =>
      match args with
      | none => ⟨.error "No arguments provided", m, [], none⟩
      | some a =>
          match handledTool name with
          | none => ⟨.ok (unknownEnvelope name), m, [], none⟩
          | some (svc, fwd) =>
              if validateArgs name a then
                if name == "google_calendar_create_event" &&
                    !(truthy (argGet "summary" a) && truthy (argGet "start" a)
                      && truthy (argGet "end" a)) then
                  ⟨.error "Missing required arguments", m, [], none⟩
                else
                  let tok := if fwd then authToken else none
                  match getInstance authOk svc tok m with
                  | (.error e, m') => ⟨.error e, m', [(svc, tok)], none⟩
                  | (.ok none, m') =>
                      ⟨.error "TypeError: client is undefined", m',
                        [(svc, tok)], none⟩
                  | (.ok (some c), m') =>
                      match op name c a with
                      | .ok text => ⟨.ok ⟨[text], false⟩, m', [(svc, tok)], some c⟩
                      | .error e => ⟨.error e, m', [(svc, tok)], some c⟩
              else ⟨.error ("Invalid arguments for " ++ name), m, [], none⟩

structure DispatchOut where
  result : ToolResult
  manager : ClientManager
  resolves : List (Service × Option String)
  usedClient : Option Nat
deriving Repr

/-- The full call-tool handler: the `try` body with the `catch` that
wraps every thrown error into the `Error:` envelope. -/
def callTool (multiuser : Bool) (init : Except String Unit)
    (authOk : String → Bool)
    (op : String → Nat → List (String × String) → Except String String)
    (header : Option String) (name : String)
    (args : Option (List (String × String))) (m : ClientManager) : DispatchOut :=
  let b := callToolBody multiuser init authOk op header name args m
  match b.outcome with
  | .ok r => ⟨r, b.manager, b.resolves, b.usedClient⟩
  | .error e => ⟨errorEnvelope e, b.manager, b.resolves, b.usedClient⟩

/-! ### The cache invariant

Every identifier stored in the cache was allocated below the counter, and
distinct entries have distinct keys and distinct identifiers.  The
constructor establishes it and every `getGoogleXInstance` call preserves
it. -/

def ManagerInv (m : ClientManager) : Prop :=
  (∀ p ∈ m.clients, p.2 < m.nextId) ∧
    m.clients.Pairwise fun p q => p.1 ≠ q.1 ∧ p.2 ≠ q.2

instance (m : ClientManager) : Decidable (ManagerInv m) := by
  unfold ManagerInv; infer_instance

/-! ### Association-list (JavaScript `Map`) lemmas -/

theorem mapGet_eq_none_iff (k : String) (l : List (String × Nat)) :
    mapGet k l = none ↔ ∀ p ∈ l, p.1 ≠ k := by
  induction l with
  | nil => simp [mapGet]
  | cons p rest ih =>
      obtain ⟨k', v⟩ := p
      by_cases h : k' = k <;> simp [mapGet, h, ih]

theorem mapGet_mem {k : String} {v : Nat} {l : List (String × Nat)}
    (h : mapGet k l = some v) : (k, v) ∈ l := by
  induction l with
  | nil => simp [mapGet] at h
  | cons p rest ih =>
      obtain ⟨k', v'⟩ := p
      by_cases hk : k' = k
      · subst hk
        simp [mapGet] at h
        simp [h]
      · simp [mapGet, hk] at h
        exact List.mem_cons_of_mem _ (ih h)

theorem mapSet_of_absent {k : String} (v : Nat) {l : List (String × Nat)}
    (h : mapGet k l = none) : mapSet k v l = l ++ [(k, v)] := by
  induction l with
  | nil => simp [mapSet]
  | cons p rest ih =>
      obtain ⟨k', v'⟩ := p
      by_cases hk : k' = k
      · simp [mapGet, hk] at h
      · simp [mapGet, hk] at h
        simp [mapSet, hk, ih h]

theorem mapGet_mapSet_self (k : String) (v : Nat) (l : List (String × Nat)) :
    mapGet k (mapSet k v l) = some v := by
  induction l with
  | nil => simp [mapSet, mapGet]
  | cons p rest ih =>
      obtain ⟨k', v'⟩ := p
      by_cases hk : k' = k <;> simp [mapSet, mapGet, hk, ih]

theorem mapGet_mapSet_ne {k' k : String} (hne : k' ≠ k) (v : Nat)
    (l : List (String × Nat)) : mapGet k' (mapSet k v l) = mapGet k' l := by
  induction l with
  | nil => simp [mapSet, mapGet, Ne.symm hne]
  | cons p rest ih =>
      obtain ⟨k'', v'⟩ := p
      by_cases hk : k'' = k
      · subst hk
        simp [mapSet, mapGet, Ne.symm hne]
      · simp [mapSet, mapGet, hk, ih]

/-! ### Cache-key disjointness -/

theorem string_ext {s t : String} (h : s.data = t.data) : s = t := by
  cases s; cases t; exact congrArg String.mk h

/-- The fingerprint invariant of the spec:
`fingerprint(c1) == fingerprint(c2) ⟺ c1 == c2`. -/
theorem hashString_inj_iff (c₁ c₂ : String) :
    hashString c₁ = hashString c₂ ↔ c₁ = c₂ := by
  constructor
  · intro h
    have hd := congrArg String.data h
    simp only [hashString, String.data_append] at hd
    exact string_ext (by simpa using hd)
  · intro h; rw [h]

/-- Distinct credentials produce distinct cache keys for the same service. -/
theorem tokenKey_inj {a b : String} (s : Service) (h : tokenKey a s = tokenKey b s) :
    a = b := by
  have hd := congrArg String.data h
  simp only [tokenKey, hashString, String.data_append, List.append_assoc] at hd
  have := List.append_cancel_right (by simpa using hd :
    a.data ++ ("-".data ++ (serviceSuffix s).data) =
      b.data ++ ("-".data ++ (serviceSuffix s).data))
  exact string_ext this

/-- The Calendar and Meet cache keys of one credential differ (their
service suffixes have different lengths). -/
theorem tokenKey_calendar_ne_meet (t : String) :
    tokenKey t .calendar ≠ tokenKey t .meet := by
  intro h
  have hd := congrArg String.data h
  simp only [tokenKey, hashString, serviceSuffix, String.data_append,
    List.append_assoc] at hd
  have h2 := List.append_cancel_left hd
  have h3 := List.append_cancel_left h2
  have h4 := List.append_cancel_left h3
  exact absurd (string_ext h4) (by decide)

theorem ManagerInv.distinct {m : ClientManager} (hm : ManagerInv m)
    {k₁ k₂ : String} {v₁ v₂ : Nat} (h₁ : mapGet k₁ m.clients = some v₁)
    (h₂ : mapGet k₂ m.clients = some v₂) (hne : k₁ ≠ k₂) : v₁ ≠ v₂ := by
  have m₁ := mapGet_mem h₁
  have m₂ := mapGet_mem h₂
  have hsym : Symmetric (fun p q : String × Nat => p.1 ≠ q.1 ∧ p.2 ≠ q.2) := by
    intro p q hpq
    exact ⟨hpq.1.symm, hpq.2.symm⟩
  have := List.Pairwise.forall hsym hm.2 m₁ m₂ (by
    intro h
    exact hne (congrArg Prod.fst h))
  exact this.2

/-- Inserting a fresh identifier at an absent key preserves the invariant. -/
theorem ManagerInv.insert {m : ClientManager} (hm : ManagerInv m)
    {k : String} (hk : mapGet k m.clients = none) (a : Nat) :
    ManagerInv
      { clients := mapSet k m.nextId m.clients
        nextId := m.nextId + 1
        authCalls := a } := by
  rw [mapSet_of_absent _ hk]
  constructor
  · intro p hp
    rcases List.mem_append.1 hp with h | h
    · exact Nat.lt_succ_of_lt (hm.1 p h)
    · simp at h
      simp [h]
  · rw [List.pairwise_append]
    refine ⟨hm.2, by simp, ?_⟩
    intro p hp q hq
    simp at hq
    subst hq
    refine ⟨(mapGet_eq_none_iff k m.clients).1 hk p hp, ?_⟩
    exact Nat.ne_of_lt (hm.1 p hp)

/-- Characterization of a successful credentialed `buildSimple` call: the
invariant is preserved, the requested key now holds the returned instance,
the allocation counter is monotone, existing entries survive, and no other
key is touched. -/
theorem buildSimple_ok {authOk : String → Bool} {s : Service} {t : String}
    {m m' : ClientManager} {i : Nat} (hm : ManagerInv m)
    (h : buildSimple authOk s t m = (.ok i, m')) :
    ManagerInv m' ∧ mapGet (tokenKey t s) m'.clients = some i ∧
      m.nextId ≤ m'.nextId ∧
      (∀ k v, mapGet k m.clients = some v → mapGet k m'.clients = some v) ∧
      (∀ k, k ≠ tokenKey t s → mapGet k m'.clients = mapGet k m.clients) := by
  rcases hc : mapGet (tokenKey t s) m.clients with _ | c
  · rcases hauth : authOk t with _ | _
    · simp [buildSimple, hc, hauth] at h
    · simp only [buildSimple, hc, hauth, if_true, Prod.mk.injEq,
        Except.ok.injEq] at h
      obtain ⟨rfl, rfl⟩ := h
      refine ⟨hm.insert hc _, mapGet_mapSet_self _ _ _, Nat.le_succ _, ?_, ?_⟩
      · intro k v hkv
        have hne : k ≠ tokenKey t s := by
          intro e
          rw [e, hc] at hkv
          exact Option.noConfusion hkv
        simpa [mapGet_mapSet_ne hne] using hkv
      · intro k hk
        exact mapGet_mapSet_ne hk _ _
  · simp only [buildSimple, hc, Prod.mk.injEq, Except.ok.injEq] at h
    obtain ⟨rfl, rfl⟩ := h
    exact ⟨hm, hc, Nat.le_refl _, fun k v hkv => hkv, fun k _ => rfl⟩

/-- Characterization of a successful credentialed `getGoogleXInstance`
call of any service kind: the invariant is preserved, the requested key
now holds the returned instance, the allocation counter is monotone, and
existing cache entries survive. -/
theorem getInstance_ok {authOk : String → Bool} {s : Service} {t : String}
    {m m' : ClientManager} {i : Nat} (hm : ManagerInv m)
    (h : getInstance authOk s (some t) m = (.ok (some i), m')) :
    ManagerInv m' ∧ mapGet (tokenKey t s) m'.clients = some i ∧
      m.nextId ≤ m'.nextId ∧
      ∀ k v, mapGet k m.clients = some v → mapGet k m'.clients = some v := by
  cases s
  case meet =>
    rcases hc : mapGet (tokenKey t .meet) m.clients with _ | c
    · rcases hauth : authOk t with _ | _
      · simp [getInstance, hc, hauth] at h
      · rcases hb : buildSimple authOk .calendar t
          { m with authCalls := m.authCalls + 1 } with ⟨r2, m2⟩
        cases r2 with
        | error e => simp [getInstance, hc, hauth, hb] at h
        | ok c2 =>
            simp only [getInstance, hc, hauth, if_true, hb, Prod.mk.injEq,
              Except.ok.injEq, Option.some.injEq] at h
            obtain ⟨rfl, rfl⟩ := h
            have hm1 : ManagerInv { m with authCalls := m.authCalls + 1 } := hm
            obtain ⟨hinv2, _, hle2, hpres2, huntouched2⟩ := buildSimple_ok hm1 hb
            have hmeet2 : mapGet (tokenKey t .meet) m2.clients = none := by
              rw [huntouched2 _ (Ne.symm (tokenKey_calendar_ne_meet t))]
              exact hc
            refine ⟨hinv2.insert hmeet2 _, mapGet_mapSet_self _ _ _,
              Nat.le_trans hle2 (Nat.le_succ _), ?_⟩
            intro k v hkv
            have hne : k ≠ tokenKey t .meet := by
              intro e
              rw [e, hc] at hkv
              exact Option.noConfusion hkv
            simpa [mapGet_mapSet_ne hne] using hpres2 k v hkv
    · simp only [getInstance, hc, Prod.mk.injEq, Except.ok.injEq,
        Option.some.injEq] at h
      obtain ⟨rfl, rfl⟩ := h
      exact ⟨hm, hc, Nat.le_refl _, fun k v hkv => hkv⟩
  all_goals (
    simp only [getInstance] at h
    split at h
    · rename_i c m2 hb
      simp only [Prod.mk.injEq, Except.ok.injEq, Option.some.injEq] at h
      obtain ⟨rfl, rfl⟩ := h
      obtain ⟨hinv, hkey, hle, hpres, _⟩ := buildSimple_ok hm hb
      exact ⟨hinv, hkey, hle, hpres⟩
    · simp at h)

/-- For Calendar, Gmail, Drive and Tasks the credentialed get is exactly
the shared `buildSimple` path. -/
theorem getInstance_nonmeet (authOk : String → Bool) {s : Service}
    (hs : s ≠ .meet) (t : String) (m : ClientManager) :
    getInstance authOk s (some t) m =
      (match buildSimple authOk s t m with
        | (.ok c, m') => (.ok (some c), m')
        | (.error e, m') => (.error e, m')) := by
  cases s
  · rfl
  · rfl
  · rfl
  · rfl
  · exact absurd rfl hs

/-- A credentialed get whose authentication oracle accepts the token
always succeeds and returns an instance. -/
theorem getInstance_token_ok (authOk : String → Bool) (s : Service)
    (t : String) (m : ClientManager) (h : authOk t = true) :
    ∃ i m', getInstance authOk s (some t) m = (.ok (some i), m') := by
  have hbs : ∀ (s' : Service) (m₀ : ClientManager),
      ∃ i m', buildSimple authOk s' t m₀ = (.ok i, m') := by
    intro s' m₀
    rcases hc : mapGet (tokenKey t s') m₀.clients with _ | c
    · refine ⟨m₀.nextId,
        { clients := mapSet (tokenKey t s') m₀.nextId m₀.clients
          nextId := m₀.nextId + 1
          authCalls := m₀.authCalls + 1 }, ?_⟩
      simp [buildSimple, hc, h]
    · exact ⟨c, m₀, by simp [buildSimple, hc]⟩
  cases s
  case meet =>
    rcases hc : mapGet (tokenKey t .meet) m.clients with _ | c
    · obtain ⟨i2, m2, hb⟩ := hbs .calendar { m with authCalls := m.authCalls + 1 }
      refine ⟨m2.nextId,
        { clients := mapSet (tokenKey t .meet) m2.nextId m2.clients
          nextId := m2.nextId + 1
          authCalls := m2.authCalls }, ?_⟩
      simp [getInstance, hc, h, hb]
    · exact ⟨c, m, by simp [getInstance, hc]⟩
  all_goals (
    rw [getInstance_nonmeet authOk (by decide) t m]
    obtain ⟨i2, m2, hb⟩ := hbs _ m
    exact ⟨i2, m2, by rw [hb]⟩)

/-! ### Claims about the Session Manager -/

/-- Claim C1, counterexample: as stated — "for every service kind …
the authentication exchange (createAuthClient) is performed only once" —
the claim fails for the Meet service.  On a fresh manager, two
`getGoogleMeetInstance("tok")` calls return the same instance, but the
first performs the exchange twice (once for the Meet client itself and
once inside the nested `getGoogleCalendarInstance(authToken)`), so the
total is 2, not 1. -/
theorem claim_C1_counterexample :
    ((mkClientManager false false false false false).getGoogleMeetInstance
        (fun _ => true) (some "tok")).1 = .ok (some 1) ∧
    (((mkClientManager false false false false false).getGoogleMeetInstance
        (fun _ => true) (some "tok")).2.getGoogleMeetInstance
        (fun _ => true) (some "tok")).1 = .ok (some 1) ∧
    (((mkClientManager false false false false false).getGoogleMeetInstance
        (fun _ => true) (some "tok")).2.getGoogleMeetInstance
        (fun _ => true) (some "tok")).2.authCalls = 2 ∧
    ¬ (((mkClientManager false false false false false).getGoogleMeetInstance
        (fun _ => true) (some "tok")).2.getGoogleMeetInstance
        (fun _ => true) (some "tok")).2.authCalls = 1 := by
  refine ⟨rfl, rfl, rfl, ?_⟩
  decide

/-- Claim C1 (amended): for every service kind and credential not yet
cached, calling get twice with the same credential returns the same
ClientInstance both times; the second call is a pure cache hit (it
changes nothing: no rebuild, no authentication exchange); the first call
performs the authentication exchange exactly once for Calendar, Gmail,
Drive and Tasks, and at most twice for Meet (once for the Meet client
plus at most once inside the dependent Calendar resolution). -/
theorem claim_C1_amended (authOk : String → Bool) (s : Service) (t : String)
    (m : ClientManager) (hauth : authOk t = true)
    (habsent : mapGet (tokenKey t s) m.clients = none) :
    ∃ i,
      (getInstance authOk s (some t) m).1 = .ok (some i) ∧
      getInstance authOk s (some t) (getInstance authOk s (some t) m).2 =
        (.ok (some i), (getInstance authOk s (some t) m).2) ∧
      (s ≠ .meet →
        ((getInstance authOk s (some t) m).2).authCalls = m.authCalls + 1) ∧
      ((getInstance authOk s (some t) m).2).authCalls ≤ m.authCalls + 2 := by
  cases s
  case meet =>
    rcases hcal : mapGet (tokenKey t .calendar) m.clients with _ | c0
    · refine ⟨m.nextId + 1, ?_, ?_, fun h => absurd rfl h, ?_⟩
      · simp [getInstance, buildSimple, habsent, hauth, hcal]
      · simp [getInstance, buildSimple, habsent, hauth, hcal,
          mapGet_mapSet_self]
      · simp [getInstance, buildSimple, habsent, hauth, hcal]
    · refine ⟨m.nextId, ?_, ?_, fun h => absurd rfl h, ?_⟩
      · simp [getInstance, buildSimple, habsent, hauth, hcal]
      · simp [getInstance, buildSimple, habsent, hauth, hcal,
          mapGet_mapSet_self]
      · simp [getInstance, buildSimple, habsent, hauth, hcal]
  all_goals (
    refine ⟨m.nextId, ?_, ?_, fun _ => ?_, ?_⟩
    · simp [getInstance, buildSimple, habsent, hauth]
    · simp [getInstance, buildSimple, habsent, hauth, mapGet_mapSet_self]
    · simp [getInstance, buildSimple, habsent, hauth]
    · simp [getInstance, buildSimple, habsent, hauth])

/-- Claim C1 (amended), witness at a concrete input: Calendar, token
`"a"`, single-tenant-style manager with four defaults. -/
theorem claim_C1_amended_witness :
    (fun _ : String => true) "a" = true ∧
    mapGet (tokenKey "a" .calendar)
      (mkClientManager true true true true false).clients = none ∧
    ∃ i,
      (getInstance (fun _ => true) .calendar (some "a")
        (mkClientManager true true true true false)).1 = .ok (some i) ∧
      getInstance (fun _ => true) .calendar (some "a")
          (getInstance (fun _ => true) .calendar (some "a")
            (mkClientManager true true true true false)).2 =
        (.ok (some i),
          (getInstance (fun _ => true) .calendar (some "a")
            (mkClientManager true true true true false)).2) ∧
      (Service.calendar ≠ .meet →
        ((getInstance (fun _ => true) .calendar (some "a")
            (mkClientManager true true true true false)).2).authCalls =
          (mkClientManager true true true true false).authCalls + 1) ∧
      ((getInstance (fun _ => true) .calendar (some "a")
          (mkClientManager true true true true false)).2).authCalls ≤
        (mkClientManager true true true true false).authCalls + 2 :=
  ⟨rfl, by decide,
    claim_C1_amended (fun _ => true) .calendar "a"
      (mkClientManager true true true true false) rfl (by decide)⟩

/-- Claim C2: identity isolation.  The fingerprint invariant
`hashString(c1) == hashString(c2) ⟺ c1 == c2` holds, and on any manager
satisfying the cache invariant, sequential gets of the same service with
two distinct credentials never return the same ClientInstance. -/
theorem claim_C2 :
    (∀ c₁ c₂ : String, hashString c₁ = hashString c₂ ↔ c₁ = c₂) ∧
    ∀ (authOk : String → Bool) (s : Service) (a b : String)
      (m : ClientManager) (ia ib : Nat),
      ManagerInv m → a ≠ b →
      (getInstance authOk s (some a) m).1 = .ok (some ia) →
      (getInstance authOk s (some b)
        ((getInstance authOk s (some a) m).2)).1 = .ok (some ib) →
      ia ≠ ib := by
  refine ⟨hashString_inj_iff, ?_⟩
  intro authOk s a b m ia ib hm hab h1 h2
  rcases hp1 : getInstance authOk s (some a) m with ⟨r1, m1⟩
  rw [hp1] at h1 h2
  simp only at h1 h2
  subst h1
  have hfull1 : getInstance authOk s (some a) m = (.ok (some ia), m1) := hp1
  obtain ⟨hm1, hka, _, _⟩ := getInstance_ok hm hfull1
  rcases hp2 : getInstance authOk s (some b) m1 with ⟨r2, m2⟩
  rw [hp2] at h2
  simp only at h2
  subst h2
  have hfull2 : getInstance authOk s (some b) m1 = (.ok (some ib), m2) := hp2
  obtain ⟨hm2, hkb, _, hpres⟩ := getInstance_ok hm1 hfull2
  have hka2 : mapGet (tokenKey a s) m2.clients = some ia := hpres _ _ hka
  have hkeys : tokenKey a s ≠ tokenKey b s := fun e => hab (tokenKey_inj s e)
  exact hm2.distinct hka2 hkb hkeys

/-- Claim C2, witness at a concrete input: the single-tenant-style
manager (four defaults, identifiers 0–3), credentials `"a"` and `"b"` on
Calendar yield instances 4 and 5 respectively. -/
theorem claim_C2_witness :
    ManagerInv (mkClientManager true true true true false) ∧
    ("a" : String) ≠ "b" ∧
    (getInstance (fun _ => true) .calendar (some "a")
      (mkClientManager true true true true false)).1 = .ok (some 4) ∧
    (getInstance (fun _ => true) .calendar (some "b")
      ((getInstance (fun _ => true) .calendar (some "a")
        (mkClientManager true true true true false)).2)).1 = .ok (some 5) ∧
    (4 : Nat) ≠ 5 :=
  ⟨by decide, by decide, rfl, rfl,
    claim_C2.2 (fun _ => true) .calendar "a" "b"
      (mkClientManager true true true true false) 4 5
      (by decide) (by decide) rfl rfl⟩

/-- Claim C4: factory-failure atomicity.  If the authentication exchange
fails for an uncached credential, the get rejects with that failure, the
`clients` map and the allocation counter are untouched (only the exchange
attempt is recorded), and a subsequent call with the same credential
retries construction from scratch and succeeds once the exchange does. -/
theorem claim_C4 (authOk : String → Bool) (s : Service) (t : String)
    (m : ClientManager) (hauth : authOk t = false)
    (habsent : mapGet (tokenKey t s) m.clients = none) :
    getInstance authOk s (some t) m =
      (.error "AuthInitializationError",
        { m with authCalls := m.authCalls + 1 }) ∧
    ∀ authOk₂ : String → Bool, authOk₂ t = true →
      ∃ i m', getInstance authOk₂ s (some t)
          { m with authCalls := m.authCalls + 1 } = (.ok (some i), m') := by
  constructor
  · cases s <;> simp [getInstance, buildSimple, habsent, hauth]
  · intro authOk₂ h2
    exact getInstance_token_ok authOk₂ s t _ h2

/-- Claim C4, witness at a concrete input: Gmail, token `"x"`, empty
manager, an oracle rejecting every token, retried with one accepting. -/
theorem claim_C4_witness :
    (fun _ : String => false) "x" = false ∧
    mapGet (tokenKey "x" .gmail)
      (mkClientManager false false false false false).clients = none ∧
    (getInstance (fun _ => false) .gmail (some "x")
        (mkClientManager false false false false false) =
      (.error "AuthInitializationError",
        { mkClientManager false false false false false with
            authCalls :=
              (mkClientManager false false false false false).authCalls + 1 }) ∧
    ∀ authOk₂ : String → Bool, authOk₂ "x" = true →
      ∃ i m', getInstance authOk₂ .gmail (some "x")
          { mkClientManager false false false false false with
              authCalls :=
                (mkClientManager false false false false false).authCalls + 1 } =
        (.ok (some i), m')) :=
  ⟨rfl, by decide,
    claim_C4 (fun _ => false) .gmail "x"
      (mkClientManager false false false false false) rfl (by decide)⟩

/-! ### Catalog lemmas -/

theorem dedupByName_name_mem (n : String) :
    ∀ (l : List Tool) (seen : List String),
      n ∈ (dedupByName seen l).map Tool.name ↔
        n ∈ l.map Tool.name ∧ n ∉ seen := by
  intro l
  induction l with
  | nil => simp [dedupByName]
  | cons t rest ih =>
      intro seen
      by_cases hs : t.name ∈ seen
      · simp only [dedupByName, if_pos hs, ih, List.map_cons, List.mem_cons]
        constructor
        · exact fun ⟨h1, h2⟩ => ⟨Or.inr h1, h2⟩
        · rintro ⟨h1 | h1, h2⟩
          · exact absurd (h1 ▸ hs) h2
          · exact ⟨h1, h2⟩
      · simp only [dedupByName, if_neg hs, List.map_cons, List.mem_cons, ih,
          List.mem_cons, not_or]
        constructor
        · rintro (rfl | ⟨h1, h2, h3⟩)
          · exact ⟨Or.inl rfl, hs⟩
          · exact ⟨Or.inr h1, h3⟩
        · rintro ⟨rfl | h1, h2⟩
          · exact Or.inl rfl
          · by_cases hn : n = t.name
            · exact Or.inl hn
            · exact Or.inr ⟨h1, hn, h2⟩

theorem dedupByName_name_nodup :
    ∀ (l : List Tool) (seen : List String),
      ((dedupByName seen l).map Tool.name).Nodup := by
  intro l
  induction l with
  | nil => simp [dedupByName]
  | cons t rest ih =>
      intro seen
      by_cases hs : t.name ∈ seen
      · simpa [dedupByName, hs] using ih seen
      · simp only [dedupByName, if_neg hs, List.map_cons, List.nodup_cons]
        refine ⟨?_, ih _⟩
        rw [dedupByName_name_mem]
        rintro ⟨-, h⟩
        exact h (List.mem_cons_self _ _)

theorem dedupByName_sublist :
    ∀ (l : List Tool) (seen : List String),
      List.Sublist (dedupByName seen l) l := by
  intro l
  induction l with
  | nil => intro seen; simp [dedupByName]
  | cons t rest ih =>
      intro seen
      by_cases hs : t.name ∈ seen
      · simpa [dedupByName, hs] using (ih seen).cons t
      · simpa [dedupByName, hs] using (ih (t.name :: seen)).cons₂ t

/-- The accumulator rendering of the source's findIndex-based filter
agrees with the spec's description of the deduplication (`dedupSpec`). -/
theorem dedupByName_eq_dedupSpec :
    ∀ (l : List Tool) (seen : List String),
      dedupByName seen l =
        dedupSpec (l.filter fun u => decide (u.name ∉ seen)) := by
  intro l
  induction l with
  | nil => intro seen; simp [dedupByName, dedupSpec]
  | cons t rest ih =>
      intro seen
      by_cases hs : t.name ∈ seen
      · simp only [dedupByName, if_pos hs, List.filter_cons,
          decide_eq_true_eq, hs, not_true_eq_false, decide_False,
          Bool.false_eq_true, if_false]
        exact ih seen
      · have h1 : dedupByName seen (t :: rest) =
            t :: dedupByName (t.name :: seen) rest := by
          simp [dedupByName, hs]
        have h2 : List.filter (fun u => decide (u.name ∉ seen)) (t :: rest) =
            t :: List.filter (fun u => decide (u.name ∉ seen)) rest := by
          simp [hs]
        rw [h1, h2]
        simp only [dedupSpec]
        rw [ih (t.name :: seen), List.filter_filter]
        congr 1
        refine congrArg dedupSpec ?_
        apply List.filter_congr
        intro u _
        by_cases hu1 : u.name = t.name <;> by_cases hu2 : u.name ∈ seen <;>
          simp [hu1, hu2]

/-- Claim C5: catalog scoping.  With no scope list `getToolsForScopes`
returns the full fixed catalog in registration order.  With a scope list
it returns the concatenation of the given scopes' tool lists (unknown
scopes contribute nothing, which the definition renders by
`filterMap toolsPerScope`), deduplicated by tool name keeping the first
occurrence in first-encountered order (the refinement to `dedupSpec`);
the result has no duplicate names, is a sublist of the concatenation
(hence preserves its order), and carries exactly the concatenation's
names.  The function is a pure Lean function, hence deterministic. -/
theorem claim_C5 :
    getToolsForScopes none = tools ∧
    ∀ ss : List String,
      getToolsForScopes (some ss) =
        dedupSpec ((ss.filterMap toolsPerScope).flatten) ∧
      ((getToolsForScopes (some ss)).map Tool.name).Nodup ∧
      List.Sublist (getToolsForScopes (some ss))
        ((ss.filterMap toolsPerScope).flatten) ∧
      ∀ n : String,
        n ∈ (getToolsForScopes (some ss)).map Tool.name ↔
          n ∈ ((ss.filterMap toolsPerScope).flatten).map Tool.name := by
  refine ⟨rfl, fun ss => ⟨?_, ?_, ?_, ?_⟩⟩
  · rw [getToolsForScopes, dedupByName_eq_dedupSpec]
    congr 1
    rw [List.filter_eq_self]
    intro a _
    simp
  · exact dedupByName_name_nodup _ _
  · exact dedupByName_sublist _ _
  · intro n
    rw [getToolsForScopes, dedupByName_name_mem]
    simp

/-- Claim C6: the read-only calendar scope yields exactly the four
read-only calendar tools with no duplicate names, and the union of the
read-only and full calendar scopes is deduplicated by name in first-seen
order (the scope table is keyed by full URLs). -/
theorem claim_C6 :
    getToolsForScopes
        (some ["https://www.googleapis.com/auth/calendar.readonly"]) =
      [LIST_CALENDARS_TOOL, GET_EVENTS_TOOL, GET_EVENT_TOOL,
        FIND_FREE_TIME_TOOL] ∧
    (getToolsForScopes
        (some ["https://www.googleapis.com/auth/calendar.readonly"])).length
      = 4 ∧
    ((getToolsForScopes
        (some ["https://www.googleapis.com/auth/calendar.readonly"])).map
          Tool.name).Nodup ∧
    getToolsForScopes
        (some ["https://www.googleapis.com/auth/calendar.readonly",
          "https://www.googleapis.com/auth/calendar"]) =
      [LIST_CALENDARS_TOOL, GET_EVENTS_TOOL, GET_EVENT_TOOL,
        FIND_FREE_TIME_TOOL, SET_DEFAULT_CALENDAR_TOOL, CREATE_EVENT_TOOL,
        UPDATE_EVENT_TOOL, DELETE_EVENT_TOOL] := by
  refine ⟨rfl, rfl, ?_, rfl⟩
  decide

/-! ### Dispatcher lemmas and claims -/

/-- Every non-thrown outcome of the handler body is either the
unknown-tool envelope or a single-block success envelope. -/
theorem callToolBody_ok_shape {multiuser : Bool} {init : Except String Unit}
    {authOk : String → Bool}
    {op : String → Nat → List (String × String) → Except String String}
    {header : Option String} {name : String}
    {args : Option (List (String × String))} {m : ClientManager}
    {r : ToolResult}
    (h : (callToolBody multiuser init authOk op header name args m).outcome =
      .ok r) :
    r = unknownEnvelope name ∨ ∃ text, r = ⟨[text], false⟩ := by
  simp only [callToolBody] at h
  split at h
  · simp at h
  · split at h
    · simp at h
    · split at h
      · simp at h
        exact Or.inl h.symm
      · split at h
        · split at h
          · simp at h
          · split at h
            · simp at h
            · simp at h
            · split at h
              · simp at h
                exact Or.inr ⟨_, h.symm⟩
              · simp at h
        · simp at h

/-- Claim C3, counterexample: as stated — "a tool name not present in
the catalog returns `{… Unknown tool: <name> …}, isError: true`" — the
claim fails at `google_drive_update_file`.  That name is absent from the
catalog (`UPDATE_FILE_TOOL` is commented out of `tools` and of every
scope list) yet the dispatcher has a case for it: a gated call with its
required fields present runs the operation and returns a success
envelope, not the unknown-tool envelope. -/
theorem claim_C3_counterexample :
    "google_drive_update_file" ∉ tools.map Tool.name ∧
    (callTool true (.ok ()) (fun _ => true) (fun _ _ _ => .ok "r") none
        "google_drive_update_file" (some [("fileId", "1"), ("content", "x")])
        (mkClientManager true true true true false)).result =
      ⟨["r"], false⟩ ∧
    (callTool true (.ok ()) (fun _ => true) (fun _ _ _ => .ok "r") none
        "google_drive_update_file" (some [("fileId", "1"), ("content", "x")])
        (mkClientManager true true true true false)).result ≠
      unknownEnvelope "google_drive_update_file" := by
  refine ⟨by decide, rfl, ?_⟩
  decide

/-- Claim C3 (amended): uniform envelope, never-throw dispatch.  The
handler is a total function; every result is a single text content
block; every error result is either the `Error: <message>` wrapping of a
thrown error or the `Unknown tool: <name>` envelope; and whenever the
startup gate passes, arguments are present and the name has no case in
the dispatcher's switch — the handled set, which is the catalog minus
`google_drive_update_file` (dispatchable though unlisted) and minus the
five listed-but-caseless names — the result is exactly the unknown-tool
envelope with no client resolved and the manager untouched. -/
theorem claim_C3 :
    (∀ (multiuser : Bool) (init : Except String Unit) (authOk : String → Bool)
        (op : String → Nat → List (String × String) → Except String String)
        (header : Option String) (name : String)
        (args : Option (List (String × String))) (m : ClientManager),
      (callTool multiuser init authOk op header name args m).result.content.length
        = 1) ∧
    (∀ multiuser init authOk op header name args m,
      (callTool multiuser init authOk op header name args m).result.isError
          = true →
        (∃ msg,
          (callTool multiuser init authOk op header name args m).result.content
            = ["Error: " ++ msg]) ∨
        (callTool multiuser init authOk op header name args m).result.content
          = ["Unknown tool: " ++ name]) ∧
    (∀ multiuser init authOk op header name a m,
      handledTool name = none → gateOk multiuser init = .ok () →
      callTool multiuser init authOk op header name (some a) m =
        ⟨unknownEnvelope name, m, [], none⟩) := by
  refine ⟨?_, ?_, ?_⟩
  · intro multiuser init authOk op header name args m
    rcases hb : (callToolBody multiuser init authOk op header name args m).outcome
      with e | r
    · simp [callTool, hb, errorEnvelope]
    · rcases callToolBody_ok_shape hb with rfl | ⟨text, rfl⟩ <;>
        simp [callTool, hb, unknownEnvelope]
  · intro multiuser init authOk op header name args m herr
    rcases hb : (callToolBody multiuser init authOk op header name args m).outcome
      with e | r
    · exact Or.inl ⟨e, by simp [callTool, hb, errorEnvelope]⟩
    · rcases callToolBody_ok_shape hb with rfl | ⟨text, rfl⟩
      · exact Or.inr (by simp [callTool, hb, unknownEnvelope])
      · simp [callTool, hb] at herr
  · intro multiuser init authOk op header name a m hname hgate
    simp [callTool, callToolBody, hname, hgate]

/-- Claim C3, witness for the unknown-tool part: an unlisted name on the
multiuser path returns the unknown-tool envelope untouched. -/
theorem claim_C3_witness :
    handledTool "not_a_tool" = none ∧
    gateOk true (.ok ()) = .ok () ∧
    callTool true (.ok ()) (fun _ => true) (fun _ _ _ => .ok "r") none
        "not_a_tool" (some []) (mkClientManager false false false false false) =
      ⟨unknownEnvelope "not_a_tool",
        mkClientManager false false false false false, [], none⟩ :=
  ⟨rfl, rfl,
    claim_C3.2.2 true (.ok ()) (fun _ => true) (fun _ _ _ => .ok "r") none
      "not_a_tool" [] (mkClientManager false false false false false) rfl rfl⟩

/-- Claim C7: single-tenant startup gate.  In non-multiuser mode the
handler awaits the startup initialization before anything else: if that
initialization failed, every call returns the descriptive error envelope
for the startup failure, resolves no client and leaves the manager
untouched; and, in any mode, a client resolution can only ever happen
after the startup gate has passed. -/
theorem claim_C7 :
    (∀ (e : String) (authOk : String → Bool)
        (op : String → Nat → List (String × String) → Except String String)
        (header : Option String) (name : String)
        (args : Option (List (String × String))) (m : ClientManager),
      callTool false (.error e) authOk op header name args m =
        ⟨errorEnvelope e, m, [], none⟩) ∧
    (∀ multiuser init authOk op header name args m,
      (callTool multiuser init authOk op header name args m).resolves ≠ [] →
      gateOk multiuser init = .ok ()) := by
  constructor
  · intro e authOk op header name args m
    simp [callTool, callToolBody, gateOk]
  · intro multiuser init authOk op header name args m h
    rcases hg : gateOk multiuser init with e | u
    · exact absurd (by simp [callTool, callToolBody, hg]) h
    · cases u
      rfl

/-- Claim C7, witness: a failed startup (`init = .error "auth failed"`)
makes a single-tenant call return the error envelope with no resolution,
and a call that did resolve a client (Calendar on the multiuser path) has
a passed gate. -/
theorem claim_C7_witness :
    callTool false (.error "auth failed") (fun _ => true)
        (fun _ _ _ => .ok "r") none "google_calendar_list_calendars"
        (some []) (mkClientManager false false false false false) =
      ⟨errorEnvelope "auth failed",
        mkClientManager false false false false false, [], none⟩ ∧
    (callTool true (.ok ()) (fun _ => true) (fun _ _ _ => .ok "r")
        (some "Bearer t") "google_calendar_list_calendars" (some [])
        (mkClientManager false false false false false)).resolves ≠ [] ∧
    gateOk true (.ok ()) = .ok () :=
  ⟨claim_C7.1 "auth failed" (fun _ => true) (fun _ _ _ => .ok "r") none
      "google_calendar_list_calendars" (some [])
      (mkClientManager false false false false false),
    by decide,
    claim_C7.2 true (.ok ()) (fun _ => true) (fun _ _ _ => .ok "r")
      (some "Bearer t") "google_calendar_list_calendars" (some [])
      (mkClientManager false false false false false) (by decide)⟩

/-- Claim C8: validation gate.  Calling the create-event tool with an
empty argument bag (missing the required summary, start and end fields)
returns an error envelope, resolves no client, invokes no operation and
leaves the manager untouched — in every mode, for every oracle, header
and manager. -/
theorem claim_C8 (multiuser : Bool) (init : Except String Unit)
    (authOk : String → Bool)
    (op : String → Nat → List (String × String) → Except String String)
    (header : Option String) (m : ClientManager) :
    (callTool multiuser init authOk op header "google_calendar_create_event"
        (some []) m).result.isError = true ∧
    (callTool multiuser init authOk op header "google_calendar_create_event"
        (some []) m).resolves = [] ∧
    (callTool multiuser init authOk op header "google_calendar_create_event"
        (some []) m).usedClient = none ∧
    (callTool multiuser init authOk op header "google_calendar_create_event"
        (some []) m).manager = m := by
  have hh : handledTool "google_calendar_create_event" =
      some (.calendar, true) := rfl
  have hv : validateArgs "google_calendar_create_event" [] = false := by decide
  rcases hg : gateOk multiuser init with e | u <;>
    simp [callTool, callToolBody, hg, hh, hv, errorEnvelope]

/-- Claim C9: the `google_tasks_get_task` handler resolves its Tasks
client without the extracted credential.  The call's entire outcome is
independent of the supplied authorization header, and whenever the gate
passes and validation succeeds the single resolution carries no token,
the client used is the default-identity Tasks instance of the cache, and
the manager is unchanged (no per-user client is ever built). -/
theorem claim_C9 :
    (∀ (multiuser : Bool) (init : Except String Unit) (authOk : String → Bool)
        (op : String → Nat → List (String × String) → Except String String)
        (h₁ h₂ : Option String) (args : Option (List (String × String)))
        (m : ClientManager),
      callTool multiuser init authOk op h₁ "google_tasks_get_task" args m =
        callTool multiuser init authOk op h₂ "google_tasks_get_task" args m) ∧
    (∀ multiuser init authOk op header a m,
      gateOk multiuser init = .ok () →
      validateArgs "google_tasks_get_task" a = true →
      (callTool multiuser init authOk op header "google_tasks_get_task"
          (some a) m).resolves = [(.tasks, none)] ∧
      (callTool multiuser init authOk op header "google_tasks_get_task"
          (some a) m).usedClient = mapGet (defaultKey .tasks) m.clients ∧
      (callTool multiuser init authOk op header "google_tasks_get_task"
          (some a) m).manager = m) := by
  have hh : handledTool "google_tasks_get_task" = some (.tasks, false) := rfl
  constructor
  · intro multiuser init authOk op h₁ h₂ args m
    simp [callTool, callToolBody, hh]
  · intro multiuser init authOk op header a m hg hv
    rcases hd : mapGet (defaultKey .tasks) m.clients with _ | c
    · simp [callTool, callToolBody, hh, hg, hv, getInstance, hd]
    · rcases ho : op "google_tasks_get_task" c a with e | t <;>
        simp [callTool, callToolBody, hh, hg, hv, getInstance, hd, ho]

/-- Claim C9, witness: concrete calls differing only in the header
coincide, and a gated validated call resolves the default Tasks client. -/
theorem claim_C9_witness :
    callTool true (.ok ()) (fun _ => true) (fun _ _ _ => .ok "r")
        (some "Bearer a") "google_tasks_get_task" (some [("taskId", "1")])
        (mkClientManager true true true true false) =
      callTool true (.ok ()) (fun _ => true) (fun _ _ _ => .ok "r")
        (some "Bearer b") "google_tasks_get_task" (some [("taskId", "1")])
        (mkClientManager true true true true false) ∧
    gateOk true (.ok ()) = .ok () ∧
    validateArgs "google_tasks_get_task" [("taskId", "1")] = true ∧
    ((callTool true (.ok ()) (fun _ => true) (fun _ _ _ => .ok "r")
        (some "Bearer a") "google_tasks_get_task" (some [("taskId", "1")])
        (mkClientManager true true true true false)).resolves =
      [(.tasks, none)] ∧
    (callTool true (.ok ()) (fun _ => true) (fun _ _ _ => .ok "r")
        (some "Bearer a") "google_tasks_get_task" (some [("taskId", "1")])
        (mkClientManager true true true true false)).usedClient =
      mapGet (defaultKey .tasks)
        (mkClientManager true true true true false).clients ∧
    (callTool true (.ok ()) (fun _ => true) (fun _ _ _ => .ok "r")
        (some "Bearer a") "google_tasks_get_task" (some [("taskId", "1")])
        (mkClientManager true true true true false)).manager =
      mkClientManager true true true true false) :=
  ⟨claim_C9.1 true (.ok ()) (fun _ => true) (fun _ _ _ => .ok "r")
      (some "Bearer a") (some "Bearer b") (some [("taskId", "1")])
      (mkClientManager true true true true false),
    rfl, by decide,
    claim_C9.2 true (.ok ()) (fun _ => true) (fun _ _ _ => .ok "r")
      (some "Bearer a") [("taskId", "1")]
      (mkClientManager true true true true false) rfl (by decide)⟩

/-- Claim C10: the four Meet tools are present in the catalog returned by
the list-tools handler, yet none of them has a dispatch case: whenever
the gate passes and arguments are present, calling any of them falls to
the default branch and returns the unknown-tool envelope — being listed
does not imply being dispatchable. -/
theorem claim_C10 :
    (∀ n ∈ (["google_meet_list_meetings", "google_meet_get_meeting_info",
        "google_meet_get_transcript", "google_meet_search_transcripts"] :
          List String),
      (∃ tl ∈ tools, tl.name = n) ∧ handledTool n = none) ∧
    (∀ n ∈ (["google_meet_list_meetings", "google_meet_get_meeting_info",
        "google_meet_get_transcript", "google_meet_search_transcripts"] :
          List String),
      ∀ (multiuser : Bool) (init : Except String Unit) (authOk : String → Bool)
        (op : String → Nat → List (String × String) → Except String String)
        (header : Option String) (a : List (String × String))
        (m : ClientManager),
      gateOk multiuser init = .ok () →
      callTool multiuser init authOk op header n (some a) m =
        ⟨unknownEnvelope n, m, [], none⟩) := by
  constructor
  · intro n hn
    simp only [List.mem_cons, List.not_mem_nil, or_false] at hn
    rcases hn with rfl | rfl | rfl | rfl <;> exact ⟨by decide, rfl⟩
  · intro n hn multiuser init authOk op header a m hg
    simp only [List.mem_cons, List.not_mem_nil, or_false] at hn
    rcases hn with rfl | rfl | rfl | rfl <;>
      simp [callTool, callToolBody, hg, handledTool]

/-- Claim C10, witness: the first Meet tool is in the catalog and its
dispatch returns the unknown-tool envelope on a concrete gated call. -/
theorem claim_C10_witness :
    (∃ tl ∈ tools, tl.name = "google_meet_list_meetings") ∧
    gateOk true (.ok ()) = .ok () ∧
    callTool true (.ok ()) (fun _ => true) (fun _ _ _ => .ok "r") none
        "google_meet_list_meetings" (some [])
        (mkClientManager false false false false false) =
      ⟨unknownEnvelope "google_meet_list_meetings",
        mkClientManager false false false false false, [], none⟩ :=
  ⟨by decide, rfl,
    claim_C10.2 "google_meet_list_meetings" (by simp) true (.ok ())
      (fun _ => true) (fun _ _ _ => .ok "r") none []
      (mkClientManager false false false false false) rfl⟩

end GoogleMcp
